import Mathlib

/-!
Shallow embedding of the log4 asynchronous logging engine (src/log4.go).

The engine is modelled as a pure state machine.  Stateful Go code becomes
explicit state passing over `LoggerState`; the filesystem is a finite map
from path strings to file contents; the bounded channel is a FIFO list with
an explicit capacity check; the `sync.Pool` entry cache is a counter of
cached (always fully reset) records; reported errors (the error channel /
Error Sink) are a list of message strings.  Concurrency is sequentialized:
every theorem speaks about the deterministic effect of one operation on an
explicit state, which matches the Go code's per-operation behaviour under
the mutex / atomics that serialize it.

Modelling notes, each tied to the source:
* `time.Now()` is modelled by a per-state logical clock (`clock`); the Go
  `time.Time.Format` layout rendering is external library behaviour and is
  modelled abstractly by `formatTime` (rendering the abstract time point,
  ignoring the layout string, which no claim depends on).
* `os.Rename` / `os.Remove` may fail; failures are injected through the
  `renameFails` / `removeFails` oracles carried in the state.  The Go code
  in `rotateFile` discards the results of both calls, and the embedding
  does the same: the oracles only decide whether the filesystem changes.
* `os.OpenFile(..., O_CREATE|O_WRONLY|O_APPEND, ...)` is modelled as always
  succeeding (no claim concerns the `FileOpenFailed` degraded path).
* Byte sizes (`stat.Size()`, `len(formatted)+1`) are modelled by
  `String.length`; after sanitization file names are ASCII so the
  identification of bytes with characters is harmless for the claims.
* The cached `*log.Logger` for a package always writes to the file opened
  at `fileNameFor`, and the configuration is immutable, so the cache is
  modelled as a `String → Bool` flag and the write path is recomputed.
-/

namespace Log4

/-- Log levels, `DEBUG < INFO < ERROR` (Go: `LogLevel int` with iota). -/
inductive LogLevel where
  | DEBUG
  | INFO
  | ERROR
deriving DecidableEq, Repr

/-- Numeric value of a level (the Go `int` behind the enum). -/
def LogLevel.toNat : LogLevel → Nat
  | .DEBUG => 0
  | .INFO => 1
  | .ERROR => 2

/-- Go `LogLevel.String()`; within the three-constructor model the
`UNKNOWN` branch for out-of-range ints cannot arise. -/
def LogLevel.str : LogLevel → String
  | .DEBUG => "DEBUG"
  | .INFO => "INFO"
  | .ERROR => "ERROR"

/-- Go constant `MaxPackageNameLen`. -/
def MaxPackageNameLen : Nat := 100

/-- A character accepted by the Go regex class `[a-zA-Z0-9_-]`. -/
def validChar (c : Char) : Bool := c.isAlphanum || c = '_' || c = '-'

/-- Go `sanitizePackageName`: empty maps to "default", characters outside
`[a-zA-Z0-9_-]` become `_`, result truncated to `MaxPackageNameLen`.
After replacement every character is ASCII, so Go's byte-level truncation
coincides with character-level truncation. -/
def sanitizePackageName (pkg : String) : String :=
  if pkg = "" then "default"
  else String.mk ((pkg.data.map (fun c => if validChar c then c else '_')).take MaxPackageNameLen)

/-- A log record (Go `LogEntry`).  `Fields` values are already rendered
(Go renders them with `fmt.Sprintf("%v", v)`); `Context` is `none` when no
cancellation token was attached, `some b` for a token whose signalled
state is `b`; `Timestamp` is an abstract time point. -/
structure LogEntry where
  Package : String
  Level : LogLevel
  Message : String
  Fields : List (String × String)
  Context : Option Bool
  Timestamp : Nat
deriving DecidableEq, Repr

/-- The acquire-time state of a pooled record (Go `logEntryPool.New` /
`putLogEntry` reset). -/
def emptyEntry : LogEntry :=
  { Package := "", Level := .DEBUG, Message := "", Fields := [], Context := none, Timestamp := 0 }

/-- Configuration (Go `Config`); the fields the claims depend on.
File/directory permission modes and the error-handler callback are not
modelled (no claim concerns them). -/
structure Config where
  BufferSize : Nat
  LogDir : String
  TimestampFormat : String
  MinLevel : LogLevel
  MaxFileSize : Nat
  MaxFiles : Nat
deriving DecidableEq, Repr

/-- Go `DefaultConfig()` (sizes in bytes; 100 MiB). -/
def DefaultConfig : Config :=
  { BufferSize := 100, LogDir := "", TimestampFormat := "2006-01-02 15:04:05"
    MinLevel := .DEBUG, MaxFileSize := 104857600, MaxFiles := 5 }

/-- Go `strings.ToUpper`, character by character (the level strings are
ASCII, where this coincides with Go's Unicode-aware mapping). -/
def strToUpper (s : String) : String := String.mk (s.data.map Char.toUpper)

/-- Go `ParseLogLevel`: case-insensitive match with INFO fallback. -/
def ParseLogLevel (level : String) : LogLevel :=
  if strToUpper level = "DEBUG" then .DEBUG
  else if strToUpper level = "INFO" then .INFO
  else if strToUpper level = "ERROR" then .ERROR
  else .INFO

/-- Abstract model of Go `time.Time.Format`: renders the abstract time
point; the layout string is external library behaviour no claim uses. -/
def formatTime (t : Nat) (layout : String) : String :=
  let _ := layout
  toString t

/-- The `" | k1=v1, k2=v2"` suffix of `formatLogMessage` (empty when the
record has no fields). -/
def fieldsSuffix (fields : List (String × String)) : String :=
  if fields = [] then ""
  else " | " ++ String.intercalate ", " (fields.map (fun kv => kv.1 ++ "=" ++ kv.2))

/-- Go `formatLogMessage`: `"[<ts>] <LEVEL>: <message>"` plus the fields
suffix. -/
def formatLogMessage (e : LogEntry) (tsFmt : String) : String :=
  "[" ++ formatTime e.Timestamp tsFmt ++ "] " ++ e.Level.str ++ ": " ++ e.Message
    ++ fieldsSuffix e.Fields

/-- Point update of a string-keyed finite map. -/
def setKey {α : Type} (m : String → Option α) (k : String) (v : Option α) :
    String → Option α :=
  fun n => if n = k then v else m n

/-- Engine state: the `ChannelLogger` struct together with the parts of the
outside world it interacts with (filesystem, standard output, reported
errors, logical clock) and a ghost counter of executed teardowns. -/
structure LoggerState where
  config : Config
  queue : List LogEntry
  closed : Bool
  minLevel : LogLevel
  loggers : String → Bool
  fileSizes : String → Option Nat
  fs : String → Option String
  stdout : List String
  errors : List String
  pool : Nat
  clock : Nat
  teardowns : Nat
  renameFails : String → Bool
  removeFails : String → Bool

/-- Fresh engine state (Go `NewChannelLoggerWithConfig` after validation;
`os.MkdirAll` modelled as succeeding). -/
def initState (cfg : Config) : LoggerState :=
  { config := cfg, queue := [], closed := false, minLevel := cfg.MinLevel
    loggers := fun _ => false, fileSizes := fun _ => none, fs := fun _ => none
    stdout := [], errors := [], pool := 0, clock := 0, teardowns := 0
    renameFails := fun _ => false, removeFails := fun _ => false }

/-- Path of a category's base log file: `<dir>/<sanitized>.log`
(Go `fmt.Sprintf("%s.log", sanitizePackageName(pkg))` plus
`filepath.Join`). -/
def fileNameFor (cfg : Config) (pkg : String) : String :=
  if cfg.LogDir = "" then sanitizePackageName pkg ++ ".log"
  else (cfg.LogDir ++ "/") ++ (sanitizePackageName pkg ++ ".log")

/-- Name of the numbered backup `<base>.<i>`. -/
def backupName (base : String) (i : Nat) : String := base ++ "." ++ toString i

/-- Go `os.Rename(old,new)` with result discarded by the caller: no-op if
the source is missing or the injected failure oracle fires. -/
def fsRename (rf : String → Bool) (fs : String → Option String) (old new : String) :
    String → Option String :=
  match fs old with
  | none => fs
  | some c => if rf old then fs else setKey (setKey fs new (some c)) old none

/-- Go `os.Remove(name)` with result discarded by the caller. -/
def fsRemove (rm : String → Bool) (fs : String → Option String) (name : String) :
    String → Option String :=
  if rm name then fs else setKey fs name none

/-- The backup-shifting loop of `rotateFile`: Go
`for i := MaxFiles-1; i > 0; i--` with the oldest-backup removal at the
top index.  The counter argument is the current loop variable. -/
def rotLoop (rf rm : String → Bool) (base : String) (maxFiles : Nat) :
    Nat → (String → Option String) → (String → Option String)
  | 0, fs => fs
  | i + 1, fs =>
    rotLoop rf rm base maxFiles i
      (fsRename rf
        (if i + 1 = maxFiles - 1 then fsRemove rm fs (backupName base maxFiles) else fs)
        (backupName base (i + 1)) (backupName base (i + 2)))

/-- Go `shouldRotate`: a tracked size exists and has reached the limit. -/
def shouldRotate (s : LoggerState) (pkg : String) : Bool :=
  match s.fileSizes pkg with
  | some n => decide (s.config.MaxFileSize ≤ n)
  | none => false

/-- Step 3 of rotation: Go `os.Stat(baseName)` succeeding iff the base
file exists, followed by the rename of the base file to backup 1. -/
def rotateBase (rf : String → Bool) (fs : String → Option String) (base : String) :
    String → Option String :=
  if (fs base).isSome then fsRename rf fs base (backupName base 1) else fs

/-- Go `rotateFile`: close/forget the cached logger, shift backups, move
the base file to backup 1 when it exists, reset the byte counter.  The
results of `os.Remove`/`os.Rename` are discarded by the Go code, and the
function always returns `nil`; the second component is that return value. -/
def rotateFile (s : LoggerState) (pkg : String) : LoggerState × Option String :=
  ({ s with
      loggers := fun p => if p = pkg then false else s.loggers p
      fs := rotateBase s.renameFails
        (rotLoop s.renameFails s.removeFails (fileNameFor s.config pkg) s.config.MaxFiles
          (s.config.MaxFiles - 1) s.fs)
        (fileNameFor s.config pkg)
      fileSizes := setKey s.fileSizes pkg (some 0) },
    none)

/-- Go `os.OpenFile` with `O_CREATE`: create the file empty when it does
not exist, leave it alone otherwise (append mode). -/
def createFile (fs : String → Option String) (name : String) : String → Option String :=
  if (fs name).isSome then fs else setKey fs name (some "")

/-- The (re)open half of `getLogger`: open the base file in create/append
mode, record its current size (`stat.Size()`), and cache the logger. -/
def openLogger (s : LoggerState) (pkg : String) : LoggerState :=
  { s with
      fs := createFile s.fs (fileNameFor s.config pkg)
      loggers := fun p => if p = pkg then true else s.loggers p
      fileSizes := setKey s.fileSizes pkg
        (some ((createFile s.fs (fileNameFor s.config pkg)
          (fileNameFor s.config pkg)).getD "").length) }

/-- Go `getLogger`: stdout-only when closed; cached logger when present and
no rotation is due; otherwise rotate if due, then (re)open.  Returns
(does the logger write to the file?, new state, did a rotation happen?).
The Go branch reporting a non-nil `rotateFile` error is dead code, since
`rotateFile` always returns `nil`. -/
def getLogger (s : LoggerState) (pkg : String) : Bool × LoggerState × Bool :=
  if s.closed then (false, s, false)
  else if s.loggers pkg && !(shouldRotate s pkg) then (true, s, false)
  else if shouldRotate s pkg then (true, openLogger (rotateFile s pkg).1 pkg, true)
  else (true, openLogger s pkg, false)

/-- A record's cancellation token is already signalled
(Go: `entry.Context != nil && entry.Context.Err() != nil`). -/
def ctxCancelled (e : LogEntry) : Bool :=
  match e.Context with
  | some b => b
  | none => false

/-- Go `putLogEntry`: reset the record and return it to the pool cache. -/
def releaseEntry (s : LoggerState) : LoggerState := { s with pool := s.pool + 1 }

/-- Go `getLogEntry` plus the `time.Now()` read: take a cached record or
allocate a fresh one (the cache count stays 0 on allocation), and tick
the logical clock that stands for the wall clock. -/
def acquireAt (s : LoggerState) : LoggerState :=
  { s with pool := s.pool - 1, clock := s.clock + 1 }

/-- Write one line through the multi-writer: always standard output, plus
the category's file when the logger has one (Go `logger.Println`). -/
def writeLine (s : LoggerState) (hasFile : Bool) (pkg : String) (line : String) :
    LoggerState :=
  if hasFile then
    { s with
        stdout := s.stdout ++ [line]
        fs := setKey s.fs (fileNameFor s.config pkg)
          (some ((s.fs (fileNameFor s.config pkg)).getD "" ++ line ++ "\n")) }
  else { s with stdout := s.stdout ++ [line] }

/-- The byte-counter update of the steady-state consumer:
`cl.fileSizes[entry.Package] += messageSize` with
`messageSize = len(formatted) + 1` (the trailing newline). -/
def bumpSize (s : LoggerState) (pkg : String) (lineLen : Nat) : LoggerState :=
  { s with
      fileSizes := setKey s.fileSizes pkg
        (some ((s.fileSizes pkg).getD 0 + (lineLen + 1))) }

/-- Steady-state consumer step (the `entry := <-cl.logChan` case of `run`):
drop cancelled records; otherwise format, get the router entry, add the
written length (line plus newline) to the byte counter, write, release.
Also returns whether this step performed a rotation. -/
def processEntry (s : LoggerState) (e : LogEntry) : LoggerState × Bool :=
  if ctxCancelled e then (releaseEntry s, false)
  else
    (releaseEntry
      (writeLine
        (bumpSize (getLogger s e.Package).2.1 e.Package
          (formatLogMessage e s.config.TimestampFormat).length)
        (getLogger s e.Package).1 e.Package
        (formatLogMessage e s.config.TimestampFormat)),
      (getLogger s e.Package).2.2)

/-- Drain-phase consumer step (the `<-cl.done` case of `run`): same
per-record logic except that the byte counter is not updated. -/
def drainEntry (s : LoggerState) (e : LogEntry) : LoggerState :=
  if ctxCancelled e then releaseEntry s
  else
    releaseEntry
      (writeLine (getLogger s e.Package).2.1 (getLogger s e.Package).1 e.Package
        (formatLogMessage e s.config.TimestampFormat))

/-- The drain loop of `run` triggered by the shutdown signal: process every
record already in the queue. -/
def closeDrained (s : LoggerState) : LoggerState := s.queue.foldl drainEntry s

/-- Go `Close`: compare-and-swap on the closed flag; on the winning call,
signal shutdown (so the consumer drains the queue with `drainEntry`, the
closed flag being already set), wait for the loops, close the per-category
files, and release the queue and error channel.  `teardowns` is a ghost
counter of executed teardown sequences. -/
def Close (s : LoggerState) : LoggerState :=
  if s.closed then s
  else
    { closeDrained { s with closed := true } with
        queue := []
        teardowns := (closeDrained { s with closed := true }).teardowns + 1 }

/-- Outcome of an ingestion call, mirroring the branch taken by
`logEntry`.  The Go retry path (`BufferSize > 10`, bounded 5 ms wait)
cannot observe new queue space in the sequential model, so the retry
branch ends in `droppedAfterWait`. -/
inductive EnqueueOutcome where
  | enqueued
  | droppedImmediate
  | droppedAfterWait
  | levelFiltered
  | closedNoop
  | ctxNoop
deriving DecidableEq, Repr

/-- The "queue full" error message built by `logEntry`. -/
def queueFullMsg (e : LogEntry) : String :=
  "log channel full, dropping message: " ++ e.Message

/-- Go `handleError`: the error reaches the Error Sink (error channel /
callback, with synchronous stderr fallback); modelled as a single list of
reported errors. -/
def reportError (s : LoggerState) (msg : String) : LoggerState :=
  { s with errors := s.errors ++ [msg] }

/-- Go `logEntry`: closed check, atomic min-level filter, non-blocking
enqueue, then the asymmetric drop policy on a full queue (immediate drop
for capacity ≤ 10, bounded retry then drop for larger capacities). -/
def logEntry (s : LoggerState) (e : LogEntry) : LoggerState × EnqueueOutcome :=
  if s.closed then (releaseEntry s, .closedNoop)
  else if e.Level.toNat < s.minLevel.toNat then (releaseEntry s, .levelFiltered)
  else if s.queue.length < s.config.BufferSize then
    ({ s with queue := s.queue ++ [e] }, .enqueued)
  else if 10 < s.config.BufferSize then
    (releaseEntry (reportError s (queueFullMsg e)), .droppedAfterWait)
  else
    (releaseEntry (reportError s (queueFullMsg e)), .droppedImmediate)

/-- Go `LogLevel` method: acquire a record, fill it, hand to `logEntry`. -/
def LogLevelOp (s : LoggerState) (pkg : String) (lvl : LogLevel) (msg : String) :
    LoggerState × EnqueueOutcome :=
  logEntry (acquireAt s)
    { Package := pkg, Level := lvl, Message := msg, Fields := [], Context := none
      Timestamp := s.clock }

/-- Go `Log`: string level parsed with `ParseLogLevel`. -/
def LogOp (s : LoggerState) (pkg lvl msg : String) : LoggerState × EnqueueOutcome :=
  LogLevelOp s pkg (ParseLogLevel lvl) msg

/-- Go `Info`. -/
def InfoOp (s : LoggerState) (pkg msg : String) : LoggerState × EnqueueOutcome :=
  LogLevelOp s pkg .INFO msg

/-- Go `Error`. -/
def ErrorOp (s : LoggerState) (pkg msg : String) : LoggerState × EnqueueOutcome :=
  LogLevelOp s pkg .ERROR msg

/-- Go `Debug`. -/
def DebugOp (s : LoggerState) (pkg msg : String) : LoggerState × EnqueueOutcome :=
  LogLevelOp s pkg .DEBUG msg

/-- Go `LogWithFields`: like `LogLevel` but with the caller's fields copied
into the record. -/
def LogWithFieldsOp (s : LoggerState) (pkg : String) (lvl : LogLevel) (msg : String)
    (fields : List (String × String)) : LoggerState × EnqueueOutcome :=
  logEntry (acquireAt s)
    { Package := pkg, Level := lvl, Message := msg, Fields := fields, Context := none
      Timestamp := s.clock }

/-- Go `LogWithContext`: immediate return when the token is already
signalled (before acquiring a record); otherwise the token travels with
the record. -/
def LogWithContextOp (s : LoggerState) (cancelled : Bool) (pkg lvl msg : String) :
    LoggerState × EnqueueOutcome :=
  if cancelled then (s, .ctxNoop)
  else
    logEntry (acquireAt s)
      { Package := pkg, Level := ParseLogLevel lvl, Message := msg, Fields := []
        Context := some cancelled, Timestamp := s.clock }

/-- The category-bound façade (Go `PackageLogger.Info`): fixes the category
and forwards. -/
def PackageLoggerInfoOp (s : LoggerState) (pkg msg : String) :
    LoggerState × EnqueueOutcome :=
  InfoOp s pkg msg

/-- The file names `rotateFile` may touch: the base file and the numbered
backups `1 … maxFiles`. -/
def rotateTouched (base : String) (maxFiles : Nat) : List String :=
  base :: backupName base 1 :: (List.range maxFiles).map (fun i => backupName base (i + 1))

/-- Number of dots in a string (used to separate base file names, which
have exactly one dot after the sanitized category, from backup names,
which have at least two). -/
def dotCount (s : String) : Nat := s.data.count '.'

/-- The configuration of the spec's end-to-end scenario: capacity 10,
directory `/tmp/x`. -/
def e2eCfg : Config :=
  { BufferSize := 10, LogDir := "/tmp/x", TimestampFormat := "2006-01-02 15:04:05"
    MinLevel := .DEBUG, MaxFileSize := 104857600, MaxFiles := 5 }

/-- End-to-end scenario, just before `close()`: a fresh engine that
received `info("svc","started")` then `error("svc","boom")`, with both
records still in the queue when the shutdown signal is raised. -/
def e2ePre : LoggerState :=
  (ErrorOp (InfoOp (initState e2eCfg) "svc" "started").1 "svc" "boom").1

/-- End-to-end scenario after `close()`. -/
def e2eFinal : LoggerState := Close e2ePre

/-- A small rotation configuration: `maxFileSizeBytes = 100`,
`maxFileCount = 3` (the spec's rotation test parameters). -/
def c2Cfg : Config :=
  { BufferSize := 10, LogDir := "", TimestampFormat := "t", MinLevel := .DEBUG
    MaxFileSize := 100, MaxFiles := 3 }

/-- A state about to rotate category `t`: over-size base file and two
existing numbered backups (the steady state after two earlier rotations). -/
def c2State : LoggerState :=
  { initState c2Cfg with
      fs := fun n => if n = "t.log" then some "AAA" else if n = "t.log.1" then some "B1"
        else if n = "t.log.2" then some "B2" else none
      fileSizes := fun p => if p = "t" then some 120 else none
      loggers := fun p => p = "t" }

/-- A state about to rotate category `t` in which the filesystem rename of
the base file fails. -/
def c3State : LoggerState :=
  { initState c2Cfg with
      fs := fun n => if n = "t.log" then some "CONTENT" else none
      fileSizes := fun p => if p = "t" then some 150 else none
      loggers := fun p => p = "t"
      renameFails := fun n => n = "t.log" }

/-- A record whose raw category name `a.b` sanitizes to `a_b`. -/
def c4Entry : LogEntry :=
  { Package := "a.b", Level := .INFO, Message := "hello", Fields := [], Context := none
    Timestamp := 0 }

/-- A record under category `svc`, used to instantiate general theorems. -/
def svcEntry : LogEntry :=
  { Package := "svc", Level := .INFO, Message := "hello", Fields := [], Context := none
    Timestamp := 0 }

/-- A closed engine state. -/
def closedState : LoggerState := { initState c2Cfg with closed := true }

/-- An open engine with minimum level INFO. -/
def infoLevelState : LoggerState := { initState c2Cfg with minLevel := .INFO }

/-- An open engine with capacity 1 whose queue is full. -/
def fullQueueState : LoggerState :=
  { initState { c2Cfg with BufferSize := 1 } with queue := [svcEntry] }

/-- A state with a cached logger for `svc` and a running byte counter. -/
def countingState : LoggerState :=
  { initState c2Cfg with
      loggers := fun p => p = "svc"
      fs := fun n => if n = "svc.log" then some "prior\n" else none
      fileSizes := fun p => if p = "svc" then some 6 else none }

/-! ## Theorems -/

theorem setKey_ne {α : Type} (m : String → Option α) (k : String) (v : Option α)
    {n : String} (h : n ≠ k) : setKey m k v n = m n := if_neg h

theorem fsRename_untouched (rf : String → Bool) (fs : String → Option String)
    (old new : String) {n : String} (h1 : n ≠ old) (h2 : n ≠ new) :
    fsRename rf fs old new n = fs n := by
  unfold fsRename
  cases h : fs old with
  | none => rfl
  | some c =>
    by_cases hr : rf old
    · simp [hr]
    · simp [hr, setKey, h1, h2]

theorem fsRemove_untouched (rm : String → Bool) (fs : String → Option String)
    (name : String) {n : String} (h : n ≠ name) : fsRemove rm fs name n = fs n := by
  unfold fsRemove
  by_cases hr : rm name
  · simp [hr]
  · simp [hr, setKey, h]

theorem logEntry_closed (s : LoggerState) (e : LogEntry) (h : s.closed = true) :
    logEntry s e = (releaseEntry s, .closedNoop) := by
  unfold logEntry
  simp [h]

theorem acquireAt_closed (s : LoggerState) : (acquireAt s).closed = s.closed := rfl

/-- C10: every level string not matching DEBUG/INFO/ERROR case-insensitively
(including the empty string) parses to INFO, and the string-level entry
points `Log` and `LogWithContext` consequently record such calls at INFO
level instead of rejecting them or reporting an error. -/
theorem c10_parse_level_fallback :
    (∀ lv : String, strToUpper lv ≠ "DEBUG" → strToUpper lv ≠ "INFO" →
      strToUpper lv ≠ "ERROR" → ParseLogLevel lv = .INFO)
    ∧ ParseLogLevel "" = .INFO
    ∧ (∀ (s : LoggerState) (pkg lv msg : String),
        LogOp s pkg lv msg = LogLevelOp s pkg (ParseLogLevel lv) msg)
    ∧ (∀ (s : LoggerState) (pkg lv msg : String),
        strToUpper lv ≠ "DEBUG" → strToUpper lv ≠ "ERROR" →
        LogOp s pkg lv msg = LogLevelOp s pkg .INFO msg)
    ∧ (∀ (s : LoggerState) (pkg lv msg : String),
        strToUpper lv ≠ "DEBUG" → strToUpper lv ≠ "ERROR" →
        LogWithContextOp s false pkg lv msg = LogWithContextOp s false pkg "INFO" msg) := by
  have hinfo : ∀ lv : String, strToUpper lv ≠ "DEBUG" → strToUpper lv ≠ "ERROR" →
      ParseLogLevel lv = .INFO := by
    intro lv h1 h3
    unfold ParseLogLevel
    rw [if_neg h1]
    by_cases h2 : strToUpper lv = "INFO"
    · rw [if_pos h2]
    · rw [if_neg h2, if_neg h3]
  refine ⟨fun lv h1 _ h3 => hinfo lv h1 h3, by decide, fun s pkg lv msg => rfl, ?_, ?_⟩
  · intro s pkg lv msg h1 h3
    show LogLevelOp s pkg (ParseLogLevel lv) msg = LogLevelOp s pkg .INFO msg
    rw [hinfo lv h1 h3]
  · intro s pkg lv msg h1 h3
    show logEntry (acquireAt s)
        { Package := pkg, Level := ParseLogLevel lv, Message := msg, Fields := []
          Context := some false, Timestamp := s.clock }
      = logEntry (acquireAt s)
        { Package := pkg, Level := ParseLogLevel "INFO", Message := msg, Fields := []
          Context := some false, Timestamp := s.clock }
    rw [hinfo lv h1 h3]
    have h4 : ParseLogLevel "INFO" = .INFO := by decide
    rw [h4]

/-- C10 witness: the unmatched level string "WARN" parses to INFO. -/
theorem c10_parse_level_fallback_witness :
    ParseLogLevel "WARN" = .INFO ∧ LogOp closedState "p" "WARN" "m"
      = LogLevelOp closedState "p" .INFO "m" :=
  ⟨c10_parse_level_fallback.1 "WARN" (by decide) (by decide) (by decide),
    c10_parse_level_fallback.2.2.2.1 closedState "p" "WARN" "m" (by decide) (by decide)⟩

/-- C5: on an open engine a record whose level is strictly below the
current minimum is released and nothing is enqueued (a silent no-op);
with minimum level INFO a DEBUG call is filtered while INFO and ERROR
calls are enqueued. -/
theorem c5_level_filter :
    (∀ (s : LoggerState) (e : LogEntry), s.closed = false →
      e.Level.toNat < s.minLevel.toNat →
      logEntry s e = (releaseEntry s, .levelFiltered))
    ∧ (∀ (s : LoggerState) (pkg msg : String), s.closed = false → s.minLevel = .INFO →
        LogLevelOp s pkg .DEBUG msg = (releaseEntry (acquireAt s), .levelFiltered))
    ∧ (∀ (s : LoggerState) (pkg : String) (lvl : LogLevel) (msg : String),
        s.closed = false → s.minLevel = .INFO → (lvl = .INFO ∨ lvl = .ERROR) →
        s.queue.length < s.config.BufferSize →
        (LogLevelOp s pkg lvl msg).2 = .enqueued
        ∧ (LogLevelOp s pkg lvl msg).1.queue
            = s.queue ++ [{ Package := pkg, Level := lvl, Message := msg, Fields := []
                            Context := none, Timestamp := s.clock }]) := by
  have hcore : ∀ (s : LoggerState) (e : LogEntry), s.closed = false →
      e.Level.toNat < s.minLevel.toNat →
      logEntry s e = (releaseEntry s, .levelFiltered) := by
    intro s e hc hlt
    unfold logEntry
    simp [hc, hlt]
  refine ⟨hcore, ?_, ?_⟩
  · intro s pkg msg hc hmin
    unfold LogLevelOp
    exact hcore _ _ hc (by simp [acquireAt, hmin, LogLevel.toNat])
  · intro s pkg lvl msg hc hmin hlvl hlen
    have hnotlt : ¬(lvl.toNat < LogLevel.toNat .INFO) := by
      rcases hlvl with h | h <;> simp [h, LogLevel.toNat]
    unfold LogLevelOp logEntry acquireAt
    simp [hc, hmin, hnotlt, hlen]

/-- C5 witness: with minimum level INFO, a DEBUG call on an open engine is
filtered. -/
theorem c5_level_filter_witness :
    LogLevelOp infoLevelState "svc" .DEBUG "m"
      = (releaseEntry (acquireAt infoLevelState), .levelFiltered) :=
  c5_level_filter.2.1 infoLevelState "svc" "m" rfl rfl

/-- C6: an ingestion call that finds the queue full drops the record
immediately when capacity is at most 10 and drops it after the bounded
retry wait when capacity is greater than 10; in either case the "queue
full" error is reported to the Error Sink and the record is released to
the pool, with nothing enqueued. -/
theorem c6_queue_full_drop :
    ∀ (s : LoggerState) (e : LogEntry), s.closed = false →
      s.minLevel.toNat ≤ e.Level.toNat →
      s.config.BufferSize ≤ s.queue.length →
      (s.config.BufferSize ≤ 10 →
        logEntry s e = (releaseEntry (reportError s (queueFullMsg e)), .droppedImmediate))
      ∧ (10 < s.config.BufferSize →
        logEntry s e = (releaseEntry (reportError s (queueFullMsg e)), .droppedAfterWait))
      ∧ (logEntry s e).1.errors = s.errors ++ [queueFullMsg e]
      ∧ (logEntry s e).1.pool = s.pool + 1
      ∧ (logEntry s e).1.queue = s.queue := by
  intro s e hc hge hfull
  have hnotlt : ¬(e.Level.toNat < s.minLevel.toNat) := not_lt.mpr hge
  have hnotlen : ¬(s.queue.length < s.config.BufferSize) := not_lt.mpr hfull
  unfold logEntry
  by_cases hbig : 10 < s.config.BufferSize
  · simp [hc, hnotlt, hnotlen, hbig, releaseEntry, reportError]
  · simp [hc, hnotlt, hnotlen, hbig, releaseEntry, reportError, not_lt.mp hbig]

/-- C6 witness: a full capacity-1 queue drops an INFO record immediately
and reports the queue-full error. -/
theorem c6_queue_full_drop_witness :
    logEntry fullQueueState svcEntry
      = (releaseEntry (reportError fullQueueState (queueFullMsg svcEntry)),
          .droppedImmediate)
    ∧ (logEntry fullQueueState svcEntry).1.errors
      = fullQueueState.errors ++ [queueFullMsg svcEntry] := by
  have h := c6_queue_full_drop fullQueueState svcEntry rfl (by decide) (by decide)
  exact ⟨h.1 (by decide), h.2.2.1⟩

/-- C7: once the engine is closed, every ingestion entry point (typed,
string-level, with fields, with context, and the category-bound façade)
enqueues nothing, performs no write to any file or to standard output,
reports nothing to the Error Sink, and releases any acquired record back
to the pool. -/
theorem c7_closed_noop :
    ∀ s : LoggerState, s.closed = true →
      (∀ (pkg : String) (lvl : LogLevel) (msg : String),
        (LogLevelOp s pkg lvl msg).1.queue = s.queue
        ∧ (LogLevelOp s pkg lvl msg).1.fs = s.fs
        ∧ (LogLevelOp s pkg lvl msg).1.stdout = s.stdout
        ∧ (LogLevelOp s pkg lvl msg).1.errors = s.errors
        ∧ (LogLevelOp s pkg lvl msg).1.pool = max s.pool 1
        ∧ (LogLevelOp s pkg lvl msg).2 = .closedNoop)
      ∧ (∀ pkg lvl msg : String,
        (LogOp s pkg lvl msg).1.queue = s.queue
        ∧ (LogOp s pkg lvl msg).1.fs = s.fs
        ∧ (LogOp s pkg lvl msg).1.stdout = s.stdout
        ∧ (LogOp s pkg lvl msg).1.errors = s.errors
        ∧ (LogOp s pkg lvl msg).2 = .closedNoop)
      ∧ (∀ (pkg : String) (lvl : LogLevel) (msg : String)
          (fields : List (String × String)),
        (LogWithFieldsOp s pkg lvl msg fields).1.queue = s.queue
        ∧ (LogWithFieldsOp s pkg lvl msg fields).1.fs = s.fs
        ∧ (LogWithFieldsOp s pkg lvl msg fields).1.stdout = s.stdout
        ∧ (LogWithFieldsOp s pkg lvl msg fields).1.errors = s.errors
        ∧ (LogWithFieldsOp s pkg lvl msg fields).2 = .closedNoop)
      ∧ (∀ (c : Bool) (pkg lvl msg : String),
        (LogWithContextOp s c pkg lvl msg).1.queue = s.queue
        ∧ (LogWithContextOp s c pkg lvl msg).1.fs = s.fs
        ∧ (LogWithContextOp s c pkg lvl msg).1.stdout = s.stdout
        ∧ (LogWithContextOp s c pkg lvl msg).1.errors = s.errors
        ∧ ((LogWithContextOp s c pkg lvl msg).2 = .closedNoop
            ∨ (LogWithContextOp s c pkg lvl msg).2 = .ctxNoop))
      ∧ (∀ pkg msg : String,
        (PackageLoggerInfoOp s pkg msg).1.queue = s.queue
        ∧ (PackageLoggerInfoOp s pkg msg).1.fs = s.fs
        ∧ (PackageLoggerInfoOp s pkg msg).1.stdout = s.stdout
        ∧ (PackageLoggerInfoOp s pkg msg).1.errors = s.errors
        ∧ (PackageLoggerInfoOp s pkg msg).2 = .closedNoop) := by
  intro s h
  have h1 : (acquireAt s).closed = true := by rw [acquireAt_closed, h]
  have hmax : s.pool - 1 + 1 = max s.pool 1 := by omega
  refine ⟨?_, ?_, ?_, ?_, ?_⟩
  · intro pkg lvl msg
    unfold LogLevelOp
    rw [logEntry_closed _ _ h1]
    simp [releaseEntry, acquireAt, hmax]
  · intro pkg lvl msg
    unfold LogOp LogLevelOp
    rw [logEntry_closed _ _ h1]
    simp [releaseEntry, acquireAt]
  · intro pkg lvl msg fields
    unfold LogWithFieldsOp
    rw [logEntry_closed _ _ h1]
    simp [releaseEntry, acquireAt]
  · intro c pkg lvl msg
    cases c with
    | true => simp [LogWithContextOp]
    | false =>
      unfold LogWithContextOp
      rw [if_neg (by decide)]
      rw [logEntry_closed _ _ h1]
      simp [releaseEntry, acquireAt]
  · intro pkg msg
    unfold PackageLoggerInfoOp InfoOp LogLevelOp
    rw [logEntry_closed _ _ h1]
    simp [releaseEntry, acquireAt]

/-- C7 witness: ingestion on a concrete closed engine is a silent no-op. -/
theorem c7_closed_noop_witness :
    (LogLevelOp closedState "svc" .INFO "m").1.queue = closedState.queue
    ∧ (LogLevelOp closedState "svc" .INFO "m").1.fs = closedState.fs
    ∧ (LogLevelOp closedState "svc" .INFO "m").1.stdout = closedState.stdout
    ∧ (LogLevelOp closedState "svc" .INFO "m").1.errors = closedState.errors
    ∧ (LogLevelOp closedState "svc" .INFO "m").1.pool = max closedState.pool 1
    ∧ (LogLevelOp closedState "svc" .INFO "m").2 = .closedNoop :=
  (c7_closed_noop closedState rfl).1 "svc" .INFO "m"

theorem drainEntry_closed (s : LoggerState) (e : LogEntry) (h : s.closed = true) :
    drainEntry s e
      = { s with
          stdout := s.stdout ++ (if ctxCancelled e then [] else
            [formatLogMessage e s.config.TimestampFormat])
          pool := s.pool + 1 } := by
  unfold drainEntry getLogger writeLine releaseEntry
  rw [if_pos h]
  cases hc : ctxCancelled e <;> simp [hc]

theorem drain_foldl_closed (es : List LogEntry) :
    ∀ s : LoggerState, s.closed = true →
      (es.foldl drainEntry s).closed = true
      ∧ (es.foldl drainEntry s).config = s.config
      ∧ (es.foldl drainEntry s).fs = s.fs
      ∧ (es.foldl drainEntry s).queue = s.queue
      ∧ (es.foldl drainEntry s).errors = s.errors
      ∧ (es.foldl drainEntry s).teardowns = s.teardowns
      ∧ (es.foldl drainEntry s).fileSizes = s.fileSizes
      ∧ (es.foldl drainEntry s).loggers = s.loggers
      ∧ (es.foldl drainEntry s).minLevel = s.minLevel
      ∧ (es.foldl drainEntry s).stdout
          = s.stdout ++ (es.filter (fun e => !ctxCancelled e)).map
              (fun e => formatLogMessage e s.config.TimestampFormat) := by
  induction es with
  | nil => intro s h; simp [h]
  | cons e es ih =>
    intro s h
    rw [List.foldl_cons, drainEntry_closed s e h]
    have h2 := ih { s with
      stdout := s.stdout ++ (if ctxCancelled e then [] else
        [formatLogMessage e s.config.TimestampFormat])
      pool := s.pool + 1 } h
    simp only at h2
    refine ⟨h2.1, h2.2.1, h2.2.2.1, h2.2.2.2.1, h2.2.2.2.2.1, h2.2.2.2.2.2.1,
      h2.2.2.2.2.2.2.1, h2.2.2.2.2.2.2.2.1, h2.2.2.2.2.2.2.2.2.1, ?_⟩
    rw [h2.2.2.2.2.2.2.2.2.2]
    cases hc : ctxCancelled e <;> simp [hc, List.filter_cons]

/-- C8: close is idempotent: a closed engine's close call is a strict
no-op, closing twice equals closing once, the teardown sequence (drain,
file closing, queue release) runs exactly once — tracked by the ghost
teardown counter — and a second close neither reports errors nor changes
anything. -/
theorem c8_close_idempotent :
    (∀ s : LoggerState, s.closed = true → Close s = s)
    ∧ (∀ s : LoggerState, Close (Close s) = Close s)
    ∧ (∀ s : LoggerState, s.closed = false →
        (Close s).closed = true ∧ (Close s).teardowns = s.teardowns + 1
        ∧ (Close s).queue = [])
    ∧ (∀ s : LoggerState, s.closed = true →
        (Close s).teardowns = s.teardowns ∧ (Close s).errors = s.errors) := by
  have hclosed : ∀ s : LoggerState, s.closed = true → Close s = s := by
    intro s h
    unfold Close
    rw [if_pos h]
  have hopen : ∀ s : LoggerState, s.closed = false →
      (Close s).closed = true ∧ (Close s).teardowns = s.teardowns + 1
      ∧ (Close s).queue = [] := by
    intro s h
    unfold Close
    rw [if_neg (by simp [h])]
    unfold closeDrained
    have h2 := drain_foldl_closed ({ s with closed := true } : LoggerState).queue
      { s with closed := true } rfl
    exact ⟨h2.1, by rw [h2.2.2.2.2.2.1], rfl⟩
  refine ⟨hclosed, ?_, hopen, ?_⟩
  · intro s
    by_cases h : s.closed = true
    · rw [hclosed s h]
      exact hclosed s h
    · have h0 : s.closed = false := by simp at h; exact h
      exact hclosed (Close s) (hopen s h0).1
  · intro s h
    rw [hclosed s h]
    exact ⟨rfl, rfl⟩

/-- C8 witness: closing a concrete open engine sets the closed flag, runs
the teardown exactly once, and releases the queue. -/
theorem c8_close_idempotent_witness :
    (Close (initState c2Cfg)).closed = true
    ∧ (Close (initState c2Cfg)).teardowns = (initState c2Cfg).teardowns + 1
    ∧ (Close (initState c2Cfg)).queue = [] :=
  c8_close_idempotent.2.2.1 (initState c2Cfg) rfl

/-- C1 (amended): on shutdown the drain phase processes every queued
non-cancelled record with the steady-state formatting, but because the
closed flag is raised before the shutdown signal, the router hands the
drain a stdout-only logger: drained records are appended to standard
output in FIFO order and no file is created or written; the filesystem is
unchanged by close. -/
theorem c1_drain_writes_stdout_only :
    ∀ s : LoggerState, s.closed = false →
      (Close s).fs = s.fs
      ∧ (Close s).stdout
          = s.stdout ++ (s.queue.filter (fun e => !ctxCancelled e)).map
              (fun e => formatLogMessage e s.config.TimestampFormat)
      ∧ (Close s).queue = []
      ∧ (Close s).closed = true := by
  intro s h
  unfold Close
  rw [if_neg (by simp [h])]
  unfold closeDrained
  have h2 := drain_foldl_closed ({ s with closed := true } : LoggerState).queue
    { s with closed := true } rfl
  exact ⟨h2.2.2.1, h2.2.2.2.2.2.2.2.2.2, rfl, h2.1⟩

/-- C1 witness: closing the end-to-end engine with both records still
queued leaves the filesystem untouched and emits both lines to standard
output. -/
theorem c1_drain_writes_stdout_only_witness :
    (Close e2ePre).fs = e2ePre.fs
    ∧ (Close e2ePre).stdout
        = e2ePre.stdout ++ (e2ePre.queue.filter (fun e => !ctxCancelled e)).map
            (fun e => formatLogMessage e e2ePre.config.TimestampFormat)
    ∧ (Close e2ePre).queue = []
    ∧ (Close e2ePre).closed = true :=
  c1_drain_writes_stdout_only e2ePre (by decide)

/-- C1 counterexample: in the spec's end-to-end scenario (capacity 10,
directory /tmp/x, info then error then close, with both records still in
the queue at close), the file /tmp/x/svc.log does not exist after close;
the two formatted lines went to standard output only. -/
theorem c1_counterexample :
    e2ePre.queue.length = 2
    ∧ e2ePre.closed = false
    ∧ e2eFinal.fs "/tmp/x/svc.log" = none
    ∧ e2eFinal.stdout = ["[0] INFO: started", "[1] ERROR: boom"] := by
  refine ⟨by decide, by decide, ?_, by decide⟩
  decide

/-- C3 (amended): the results of the rename/remove calls inside
`rotateFile` are discarded: `rotateFile` always returns nil, never reports
anything to the Error Sink (so the caller's rotation-error branch is dead
code and no RotationFailed report can occur), and the byte counter is
reset to zero regardless; `getLogger` likewise never adds an error. -/
theorem c3_rotation_failures_silent :
    (∀ (s : LoggerState) (pkg : String), (rotateFile s pkg).2 = none)
    ∧ (∀ (s : LoggerState) (pkg : String), (rotateFile s pkg).1.errors = s.errors)
    ∧ (∀ (s : LoggerState) (pkg : String), (rotateFile s pkg).1.fileSizes pkg = some 0)
    ∧ (∀ (s : LoggerState) (pkg : String), ((getLogger s pkg).2.1).errors = s.errors) := by
  refine ⟨fun s pkg => rfl, fun s pkg => rfl, ?_, ?_⟩
  · intro s pkg
    show setKey s.fileSizes pkg (some 0) pkg = some 0
    simp [setKey]
  · intro s pkg
    unfold getLogger
    by_cases h1 : s.closed = true
    · rw [if_pos h1]
    · rw [if_neg h1]
      by_cases h2 : (s.loggers pkg && !(shouldRotate s pkg)) = true
      · rw [if_pos h2]
      · rw [if_neg h2]
        by_cases h3 : shouldRotate s pkg = true
        · rw [if_pos h3]
          rfl
        · rw [if_neg h3]
          rfl

/-- C3 counterexample: a rotation in which the rename of the base file
fails (the base file keeps its content and backup 1 is not created)
reports nothing to the Error Sink, returns nil, and still resets the byte
counter — the failure is silently ignored rather than reported. -/
theorem c3_counterexample :
    c3State.renameFails "t.log" = true
    ∧ c3State.fs "t.log" = some "CONTENT"
    ∧ shouldRotate c3State "t" = true
    ∧ (rotateFile c3State "t").2 = none
    ∧ (rotateFile c3State "t").1.errors = []
    ∧ (rotateFile c3State "t").1.fs "t.log" = some "CONTENT"
    ∧ (rotateFile c3State "t").1.fs "t.log.1" = none
    ∧ (rotateFile c3State "t").1.fileSizes "t" = some 0 := by
  decide

theorem rotLoop_untouched (rf rm : String → Bool) (base : String) (maxFiles : Nat) :
    ∀ (i : Nat) (fs : String → Option String) (n : String), i ≤ maxFiles - 1 →
      (∀ j : Nat, 1 ≤ j → j ≤ maxFiles → n ≠ backupName base j) →
      rotLoop rf rm base maxFiles i fs n = fs n := by
  intro i
  induction i with
  | zero => intro fs n _ _; rfl
  | succ k ih =>
    intro fs n hle hj
    unfold rotLoop
    rw [ih _ n (by omega) hj]
    rw [fsRename_untouched rf _ _ _ (hj (k + 1) (by omega) (by omega))
      (hj (k + 2) (by omega) (by omega))]
    by_cases hc : k + 1 = maxFiles - 1
    · rw [if_pos hc, fsRemove_untouched rm fs _ (hj maxFiles (by omega) le_rfl)]
    · rw [if_neg hc]

theorem rotateBase_untouched (rf : String → Bool) (fs : String → Option String)
    (base : String) {n : String} (h1 : n ≠ base) (h2 : n ≠ backupName base 1) :
    rotateBase rf fs base n = fs n := by
  unfold rotateBase
  split
  · exact fsRename_untouched rf fs base _ h1 h2
  · rfl

theorem rotateFile_fs_untouched (s : LoggerState) (pkg : String) {n : String}
    (hn : n ∉ rotateTouched (fileNameFor s.config pkg) s.config.MaxFiles) :
    (rotateFile s pkg).1.fs n = s.fs n := by
  have h1 : n ≠ fileNameFor s.config pkg := by
    intro h
    exact hn (by rw [h]; exact List.mem_cons_self _ _)
  have h2 : n ≠ backupName (fileNameFor s.config pkg) 1 := by
    intro h
    exact hn (by rw [h]; exact List.mem_cons_of_mem _ (List.mem_cons_self _ _))
  have h3 : ∀ j : Nat, 1 ≤ j → j ≤ s.config.MaxFiles →
      n ≠ backupName (fileNameFor s.config pkg) j := by
    intro j hj1 hj2 h
    apply hn
    rw [h]
    apply List.mem_cons_of_mem
    apply List.mem_cons_of_mem
    refine List.mem_map.mpr ⟨j - 1, List.mem_range.mpr (by omega), ?_⟩
    rw [Nat.sub_add_cancel hj1]
  show rotateBase s.renameFails
      (rotLoop s.renameFails s.removeFails (fileNameFor s.config pkg) s.config.MaxFiles
        (s.config.MaxFiles - 1) s.fs)
      (fileNameFor s.config pkg) n
    = s.fs n
  rw [rotateBase_untouched _ _ _ h1 h2]
  exact rotLoop_untouched _ _ _ _ _ _ n le_rfl h3

/-- C2 (amended): during a rotation, for i from maxFiles-1 down to 1 the
backup numbered maxFiles is deleted and backup i is renamed to i+1 — which
recreates backup maxFiles from backup maxFiles-1 — and then the base file
becomes backup 1; rotation touches no name other than the base file and
the backups numbered 1 through maxFileCount, so rotated backups are named
.1 through .maxFileCount (not .maxFileCount-1) and at no point do more
than maxFileCount numbered backups exist. -/
theorem c2_rotation_backup_names :
    (∀ (s : LoggerState) (pkg : String) (n : String),
      n ∉ rotateTouched (fileNameFor s.config pkg) s.config.MaxFiles →
      (rotateFile s pkg).1.fs n = s.fs n)
    ∧ ((rotateFile c2State "t").1.fs "t.log.1" = some "AAA"
        ∧ (rotateFile c2State "t").1.fs "t.log.2" = some "B1"
        ∧ (rotateFile c2State "t").1.fs "t.log.3" = some "B2"
        ∧ (rotateFile c2State "t").1.fs "t.log" = none
        ∧ (rotateFile c2State "t").1.fs "t.log.4" = none
        ∧ c2State.config.MaxFiles = 3) :=
  ⟨fun s pkg n hn => rotateFile_fs_untouched s pkg hn, by decide⟩

/-- C2 counterexample: with maxFileCount = 3, base file over-size and
backups 1 and 2 present, rotation ends with the numbered backups 1, 2 and
3: a backup named .log.3 = .log.maxFileCount exists and three numbered
backups (more than maxFileCount - 1 = 2) exist at once. -/
theorem c2_counterexample :
    c2State.config.MaxFiles = 3
    ∧ (rotateFile c2State "t").1.fs "t.log.1" = some "AAA"
    ∧ (rotateFile c2State "t").1.fs "t.log.2" = some "B1"
    ∧ (rotateFile c2State "t").1.fs "t.log.3" = some "B2" := by
  decide

/-- C2 witness: a file name outside the base-and-backups set is untouched
by a concrete rotation. -/
theorem c2_rotation_backup_names_witness :
    ("other.txt" ∉ rotateTouched (fileNameFor c2State.config "t") c2State.config.MaxFiles)
    ∧ (rotateFile c2State "t").1.fs "other.txt" = c2State.fs "other.txt" :=
  ⟨by decide, c2_rotation_backup_names.1 c2State "t" "other.txt" (by decide)⟩

theorem dotCount_append (a b : String) : dotCount (a ++ b) = dotCount a + dotCount b := by
  simp [dotCount, String.data_append, List.count_append]

theorem validChar_ne_dot {c : Char} (h : validChar c = true) : c ≠ '.' := by
  intro he
  subst he
  exact absurd h (by decide)

theorem dotCount_sanitize (p : String) : dotCount (sanitizePackageName p) = 0 := by
  unfold sanitizePackageName
  by_cases h : p = ""
  · rw [if_pos h]
    decide
  · rw [if_neg h]
    show List.count '.' ((p.data.map (fun c => if validChar c then c else '_')).take
      MaxPackageNameLen) = 0
    rw [List.count_eq_zero]
    intro hmem
    rcases List.mem_map.mp (List.mem_of_mem_take hmem) with ⟨c, _, hc⟩
    by_cases hv : validChar c = true
    · rw [if_pos hv] at hc
      exact validChar_ne_dot hv hc
    · rw [if_neg hv] at hc
      exact absurd hc (by decide)

theorem dotCount_fileNameFor (cfg : Config) (p : String) :
    dotCount (fileNameFor cfg p) = dotCount cfg.LogDir + 1 := by
  have d1 : dotCount "/" = 0 := by decide
  have d2 : dotCount ".log" = 1 := by decide
  unfold fileNameFor
  by_cases h : cfg.LogDir = ""
  · rw [if_pos h, dotCount_append, dotCount_sanitize, h]
    decide
  · rw [if_neg h, dotCount_append, dotCount_append, dotCount_append, dotCount_sanitize]
    omega

theorem dotCount_backupName (b : String) (i : Nat) :
    dotCount b + 1 ≤ dotCount (backupName b i) := by
  unfold backupName
  rw [dotCount_append, dotCount_append]
  have d : dotCount "." = 1 := by decide
  omega

theorem fileNameFor_ne_backupName (cfg : Config) (A B : String) (i : Nat) :
    fileNameFor cfg B ≠ backupName (fileNameFor cfg A) i := by
  intro h
  have h1 := congrArg dotCount h
  rw [dotCount_fileNameFor] at h1
  have h2 := dotCount_backupName (fileNameFor cfg A) i
  rw [dotCount_fileNameFor] at h2
  omega

theorem strAppend_right_cancel {x y s : String} (h : x ++ s = y ++ s) : x = y := by
  apply String.ext
  have hd : x.data ++ s.data = y.data ++ s.data := by
    rw [← String.data_append, ← String.data_append, h]
  exact List.append_cancel_right hd

theorem strAppend_left_cancel {p x y : String} (h : p ++ x = p ++ y) : x = y := by
  apply String.ext
  have hd : p.data ++ x.data = p.data ++ y.data := by
    rw [← String.data_append, ← String.data_append, h]
  exact List.append_cancel_left hd

theorem fileNameFor_inj (cfg : Config) {A B : String}
    (h : sanitizePackageName A ≠ sanitizePackageName B) :
    fileNameFor cfg A ≠ fileNameFor cfg B := by
  intro he
  apply h
  unfold fileNameFor at he
  by_cases hd : cfg.LogDir = ""
  · rw [if_pos hd, if_pos hd] at he
    exact strAppend_right_cancel he
  · rw [if_neg hd, if_neg hd] at he
    exact strAppend_right_cancel (strAppend_left_cancel he)

theorem fileNameFor_notMem_rotateTouched (cfg : Config) {A B : String}
    (h : sanitizePackageName A ≠ sanitizePackageName B) (m : Nat) :
    fileNameFor cfg B ∉ rotateTouched (fileNameFor cfg A) m := by
  intro hmem
  rcases List.mem_cons.mp hmem with h1 | hmem1
  · exact fileNameFor_inj cfg (Ne.symm h) h1
  · rcases List.mem_cons.mp hmem1 with h2 | hmem2
    · exact fileNameFor_ne_backupName cfg A B 1 h2
    · rcases List.mem_map.mp hmem2 with ⟨i, _, hi⟩
      exact fileNameFor_ne_backupName cfg A B (i + 1) hi.symm

theorem createFile_untouched (fs : String → Option String) (name : String) {n : String}
    (h : n ≠ name) : createFile fs name n = fs n := by
  unfold createFile
  split
  · rfl
  · exact setKey_ne fs name (some "") h

theorem getLogger_config (s : LoggerState) (pkg : String) :
    ((getLogger s pkg).2.1).config = s.config := by
  unfold getLogger
  by_cases h1 : s.closed = true
  · rw [if_pos h1]
  · rw [if_neg h1]
    by_cases h2 : (s.loggers pkg && !(shouldRotate s pkg)) = true
    · rw [if_pos h2]
    · rw [if_neg h2]
      by_cases h3 : shouldRotate s pkg = true
      · rw [if_pos h3]
        rfl
      · rw [if_neg h3]
        rfl

theorem getLogger_fs_untouched (s : LoggerState) (pkg : String) {n : String}
    (h1 : n ≠ fileNameFor s.config pkg)
    (h2 : n ∉ rotateTouched (fileNameFor s.config pkg) s.config.MaxFiles) :
    ((getLogger s pkg).2.1).fs n = s.fs n := by
  unfold getLogger
  by_cases hc : s.closed = true
  · rw [if_pos hc]
  · rw [if_neg hc]
    by_cases hcache : (s.loggers pkg && !(shouldRotate s pkg)) = true
    · rw [if_pos hcache]
    · rw [if_neg hcache]
      by_cases hrot : shouldRotate s pkg = true
      · rw [if_pos hrot]
        show createFile (rotateFile s pkg).1.fs (fileNameFor s.config pkg) n = s.fs n
        rw [createFile_untouched _ _ h1]
        exact rotateFile_fs_untouched s pkg h2
      · rw [if_neg hrot]
        show createFile s.fs (fileNameFor s.config pkg) n = s.fs n
        exact createFile_untouched _ _ h1

theorem writeLine_fs_untouched (s : LoggerState) (hasFile : Bool) (pkg line : String)
    {n : String} (h : n ≠ fileNameFor s.config pkg) :
    (writeLine s hasFile pkg line).fs n = s.fs n := by
  unfold writeLine
  by_cases hf : hasFile = true
  · rw [if_pos hf]
    exact setKey_ne _ _ _ h
  · rw [if_neg hf]

/-- C4 (amended): the sanitized name, not the raw string, determines the
file: for any two categories whose sanitized names differ, processing a
record of the first leaves the output file of the second untouched.  (For
raw names this fails: distinct raw names may sanitize to the same file —
accepted collision behavior.) -/
theorem c4_sanitized_isolation :
    ∀ (s : LoggerState) (e : LogEntry) (B : String),
      sanitizePackageName e.Package ≠ sanitizePackageName B →
      (processEntry s e).1.fs (fileNameFor s.config B)
        = s.fs (fileNameFor s.config B) := by
  intro s e B h
  have hni : fileNameFor s.config B ≠ fileNameFor s.config e.Package :=
    fileNameFor_inj s.config (Ne.symm h)
  have hnm : fileNameFor s.config B
      ∉ rotateTouched (fileNameFor s.config e.Package) s.config.MaxFiles :=
    fileNameFor_notMem_rotateTouched s.config h s.config.MaxFiles
  have hgl := getLogger_fs_untouched s e.Package hni hnm
  have hcfg := getLogger_config s e.Package
  unfold processEntry
  by_cases hc : ctxCancelled e = true
  · rw [if_pos hc]
    rfl
  · rw [if_neg hc]
    show (writeLine
        (bumpSize (getLogger s e.Package).2.1 e.Package
          (formatLogMessage e s.config.TimestampFormat).length)
        (getLogger s e.Package).1 e.Package
        (formatLogMessage e s.config.TimestampFormat)).fs (fileNameFor s.config B)
      = s.fs (fileNameFor s.config B)
    have h2 : fileNameFor s.config B
        ≠ fileNameFor (bumpSize (getLogger s e.Package).2.1 e.Package
            (formatLogMessage e s.config.TimestampFormat).length).config e.Package := by
      show fileNameFor s.config B ≠ fileNameFor ((getLogger s e.Package).2.1).config e.Package
      rw [hcfg]
      exact hni
    rw [writeLine_fs_untouched _ _ _ _ h2]
    exact hgl

/-- C4 counterexample: the distinct raw category names "a.b" and "a_b"
sanitize to the same name, and a record logged under raw category "a.b"
is written into a_b.log — the output file of raw category "a_b" — so the
claim over raw names fails. -/
theorem c4_counterexample :
    ("a.b" : String) ≠ "a_b"
    ∧ sanitizePackageName "a.b" = sanitizePackageName "a_b"
    ∧ c4Entry.Package = "a.b"
    ∧ fileNameFor (initState c2Cfg).config "a_b" = "a_b.log"
    ∧ (processEntry (initState c2Cfg) c4Entry).1.fs "a_b.log"
        = some "[0] INFO: hello\n" := by
  decide

/-- C4 witness: a record under "a.b" (sanitized "a_b") leaves the file of
category "db" untouched, since the sanitized names differ. -/
theorem c4_sanitized_isolation_witness :
    sanitizePackageName c4Entry.Package ≠ sanitizePackageName "db"
    ∧ (processEntry (initState c2Cfg) c4Entry).1.fs (fileNameFor (initState c2Cfg).config "db")
        = (initState c2Cfg).fs (fileNameFor (initState c2Cfg).config "db") :=
  ⟨by decide, c4_sanitized_isolation (initState c2Cfg) c4Entry "db" (by decide)⟩

theorem writeLine_fileSizes (s : LoggerState) (hasFile : Bool) (pkg line : String) :
    (writeLine s hasFile pkg line).fileSizes = s.fileSizes := by
  unfold writeLine
  by_cases hf : hasFile = true
  · rw [if_pos hf]
  · rw [if_neg hf]

theorem processEntry_cached_fileSizes (s : LoggerState) (e : LogEntry)
    (hc : s.closed = false) (hcan : ctxCancelled e = false)
    (hcache : s.loggers e.Package = true) (hrot : shouldRotate s e.Package = false) :
    (processEntry s e).1.fileSizes e.Package
      = some ((s.fileSizes e.Package).getD 0
          + ((formatLogMessage e s.config.TimestampFormat).length + 1)) := by
  have hg : getLogger s e.Package = (true, s, false) := by
    unfold getLogger
    rw [if_neg (by simp [hc]), if_pos (by simp [hcache, hrot])]
  unfold processEntry
  rw [if_neg (by simp [hcan]), hg]
  show (writeLine (bumpSize s e.Package (formatLogMessage e s.config.TimestampFormat).length)
      true e.Package (formatLogMessage e s.config.TimestampFormat)).fileSizes e.Package = _
  rw [writeLine_fileSizes]
  show setKey s.fileSizes e.Package
      (some ((s.fileSizes e.Package).getD 0
        + ((formatLogMessage e s.config.TimestampFormat).length + 1))) e.Package = _
  simp [setKey]

/-- C9: the byte counter of a category is reset to zero exactly by
rotation (every rotation ends with the counter at zero, and a
non-rotating consumer step instead adds the written line length plus its
trailing newline); between rotations the counter never decreases. -/
theorem c9_byte_counter :
    (∀ (s : LoggerState) (pkg : String), (rotateFile s pkg).1.fileSizes pkg = some 0)
    ∧ (∀ (s : LoggerState) (e : LogEntry), s.closed = false → ctxCancelled e = false →
        s.loggers e.Package = true → shouldRotate s e.Package = false →
        (processEntry s e).1.fileSizes e.Package
          = some ((s.fileSizes e.Package).getD 0
              + ((formatLogMessage e s.config.TimestampFormat).length + 1)))
    ∧ (∀ (s : LoggerState) (e : LogEntry), s.closed = false → ctxCancelled e = false →
        shouldRotate s e.Package = false →
        (s.loggers e.Package = false → (s.fileSizes e.Package).getD 0 = 0) →
        (s.fileSizes e.Package).getD 0
          ≤ ((processEntry s e).1.fileSizes e.Package).getD 0) := by
  refine ⟨?_, processEntry_cached_fileSizes, ?_⟩
  · intro s pkg
    show setKey s.fileSizes pkg (some 0) pkg = some 0
    simp [setKey]
  · intro s e hc hcan hrot hinv
    by_cases hcache : s.loggers e.Package = true
    · rw [processEntry_cached_fileSizes s e hc hcan hcache hrot]
      simp
    · have hfalse : s.loggers e.Package = false := by
        revert hcache
        cases s.loggers e.Package <;> simp
      rw [hinv hfalse]
      exact Nat.zero_le _

/-- C9 witness: a consumer step on a category with a cached logger and
counter 6 advances the counter by the line length plus one. -/
theorem c9_byte_counter_witness :
    (processEntry countingState svcEntry).1.fileSizes svcEntry.Package
      = some ((countingState.fileSizes svcEntry.Package).getD 0
          + ((formatLogMessage svcEntry countingState.config.TimestampFormat).length + 1)) :=
  c9_byte_counter.2.1 countingState svcEntry rfl rfl (by decide) (by decide)

end Log4
